import Mathlib

/-!
# Verification of the mjjbox check-in script (`checkin.py`)

Shallow embedding of the heuristic form-interaction and outcome-classification
engine of `checkin.py`, together with theorems settling the frozen claims about
its specification.

Conventions of the embedding:
* Python strings are Lean `String`s; Python string operations that the script
  uses (`lower`, substring containment via `in`, `strip`, `startswith`,
  `"\n".join`) are re-implemented at the `List Char` level so that everything
  reduces in the kernel.
* The HTML parser (BeautifulSoup) is an external collaborator of the core
  (spec §6): a parsed response is therefore modelled as the raw body text
  together with the parser's outputs on it (the form/input tree, the visible
  text, and the block/inline tag texts), carried in a `Resp` record.
* Network I/O is modelled by an oracle (`World`): each HTTP exchange the code
  can perform is a field holding either the response or a transport error
  (`Except String Resp` / `Option Resp`), matching the `try/except` structure
  of the source.  `do_checkin_once` additionally returns the list of strategy
  requests it actually issued, making "which strategies ran" observable.
* Python `dict`s are association lists updated in place (`dictSet`), which
  preserves insertion order exactly as CPython does.
-/

/-! ## String utilities (Python semantics, `List Char` level) -/

/-- Python `str.lower`, restricted to the ASCII case mapping (the script's
markers and hints contain only ASCII letters and CJK characters, which are
unaffected by case mapping). -/
def strLower (s : String) : String := ⟨s.data.map Char.toLower⟩

/-- Is `p` a (contiguous) leading subsequence of `s`?  (`List Char` level.) -/
def isPrefOf (p s : List Char) : Bool :=
  match p, s with
  | [], _ => true
  | _ :: _, [] => false
  | a :: ps, b :: ss => a == b && isPrefOf ps ss

/-- Python `p in s` for strings: does `p` occur contiguously inside `s`? -/
def subStr (p s : List Char) : Bool :=
  match s with
  | [] => isPrefOf p []
  | _ :: t => isPrefOf p s || subStr p t

/-- Python `any(k in text for k in ks)`. -/
def containsAnyTok (ks : List String) (text : String) : Bool :=
  ks.any fun k => subStr k.data text.data

/-- Python `"\n".join(l)` (general separator). -/
def joinWith (sep : String) : List String → String
  | [] => ""
  | [x] => x
  | x :: y :: xs => x ++ sep ++ joinWith sep (y :: xs)

/-- Python `str.strip` (ASCII whitespace, which is all the script encounters). -/
def stripStr (s : String) : String :=
  ⟨(s.data.dropWhile Char.isWhitespace).reverse.dropWhile Char.isWhitespace |>.reverse⟩

/-- Python truthiness for an optional string (`None` and `""` are falsy). -/
def truthyB : Option String → Bool
  | none => false
  | some s => !(s == "")

/-- Python `a or b` on optional strings: the first truthy operand, else `b`. -/
def pyOr (a b : Option String) : Option String :=
  match a with
  | some s => if s == "" then b else some s
  | none => b

/-- Python `a or b` on strings (`""` is falsy). -/
def strOr (a b : String) : String := if a == "" then b else a

/-! ## Constants of the script (`checkin.py` lines 23-32) -/

def DEFAULT_BASE : String := "https://mjjbox.com"
def LOGIN_PATH : String := "/login"
def CHECKIN_PATH : String := "/checkin"

def USER_HINTS : List String := ["user", "username", "email", "login", "account"]
def PASS_HINTS : List String := ["pass", "password", "passwd", "pwd"]

def PROFILE_PATHS : List String :=
  ["/user", "/user/profile", "/profile", "/member", "/my", "/home", "/dashboard"]

/-- Model of `urljoin` as used by the script: all call sites join a base URL with an
absolute path or a form action; the joined URL only flows into request
dispatch (modelled by the oracle) and diagnostic messages, so plain
concatenation is an adequate model here. -/
def urljoinS (base p : String) : String := base ++ p

/-! ## HTML form model (the parser's output, spec §6) -/

/-- One `<input>` element: `name` / `type` / `value` attributes, each possibly
absent, in document order inside its form. -/
structure FormInput where
  nameAttr : Option String
  typeAttr : Option String
  valueAttr : Option String
deriving DecidableEq, Repr

/-- One `<form>` element: its `action` attribute and its inputs in document
order. -/
structure HtmlForm where
  action : Option String
  inputs : List FormInput
deriving DecidableEq, Repr

/-! ## Form Classifier (`find_login_form`, lines 59-82) -/

/-- Does any of the hints occur in the (already lowercased) name? -/
def anyHintIn (hints : List String) (lname : String) : Bool :=
  hints.any fun h => subStr h.data lname.data

/-- Python dict assignment `d[k] = v`: update in place, preserving insertion
order, else append. -/
def dictSet (d : List (String × String)) (k v : String) : List (String × String) :=
  match d with
  | [] => [(k, v)]
  | (k0, v0) :: rest => if k0 == k then (k0, v) :: rest else (k0, v0) :: dictSet rest k v

/-- The effective `type` of an input: `(inp.get("type") or "text").lower()`.
Note Python `or`: an empty `type` attribute also falls back to `"text"`. -/
def inputTyp (inp : FormInput) : String :=
  strLower (strOr (inp.typeAttr.getD "") "text")

/-- The per-form scanning loop of `find_login_form` (lines 66-79): threads
`(uname, pwd, hidden)` through the inputs in document order.  `uname` is only
set when still unset (`if not uname`), while `pwd` is overwritten by every
match. -/
def scanInputs : List FormInput → Option String → Option String →
    List (String × String) → Option String × Option String × List (String × String)
  | [], un, pw, hid => (un, pw, hid)
  | inp :: rest, un, pw, hid =>
    match inp.nameAttr with
    | none => scanInputs rest un pw hid
    | some nm =>
      if nm == "" then scanInputs rest un pw hid
      else
        let typ := inputTyp inp
        if typ == "hidden" then scanInputs rest un pw (dictSet hid nm (inp.valueAttr.getD ""))
        else
          let lname := strLower nm
          let pw' := if typ == "password" || anyHintIn PASS_HINTS lname then some nm else pw
          let un' := if (typ == "text" || typ == "email" || anyHintIn USER_HINTS lname)
                        && un.isNone then some nm else un
          scanInputs rest un' pw' hid

/-- Embedding of `find_login_form` (lines 59-82): first form whose scan produced a password
field; returns `(form, uname, pwd, hidden)` or `none` (the Python
`(None, None, None, {})` case). -/
def find_login_form : List HtmlForm →
    Option (HtmlForm × Option String × String × List (String × String))
  | [] => none
  | f :: rest =>
    let (un, pw, hid) := scanInputs f.inputs none none []
    match pw with
    | some p => some (f, un, p, hid)
    | none => find_login_form rest

/-! ## Payload Builder, blind mode (`heuristic_payload`, lines 106-111) -/

/-- Embedding of `heuristic_payload`: the nested loop `for u in USER_HINTS: for p in
PASS_HINTS: combos.append({u: username, p: password})`.  Each two-key dict is
an association list. -/
def heuristic_payload (username_value password_value : String) :
    List (List (String × String)) :=
  USER_HINTS.flatMap fun u =>
    PASS_HINTS.map fun p => [(u, username_value), (p, password_value)]

/-! ## Stats Miner (`extract_stats_from_html`, lines 191-240)

The four statistic kinds are mined from the document's visible text with an
ordered list of regular expressions per kind.  The patterns use only: literal
runs, `\s*`, `[:：]?`, `(\d+)` (exactly one capturing group per pattern),
`(?:...|...)` alternation, `(?:...)?` option, and `[^\d]{0,4}`.  The engine
below implements exactly this fragment with Python `re.search` semantics:
leftmost match, greedy quantifiers, first-alternative preference, realised by
a CPS backtracking matcher.  `re.IGNORECASE` is modelled by comparing literal
characters through the ASCII case mapping (the patterns contain only ASCII
letters and CJK characters). -/

inductive Rx where
  /-- Literal character run (compared case-insensitively, see above). -/
  | lit : List Char → Rx
  /-- Single character from a class. -/
  | cls : (Char → Bool) → Rx
  /-- Greedy `class*`. -/
  | star : (Char → Bool) → Rx
  /-- Greedy `class{0,n}`. -/
  | rep : (Char → Bool) → Nat → Rx
  | seq : Rx → Rx → Rx
  | alt : Rx → Rx → Rx
  /-- Greedy `(?:...)?`. -/
  | opt : Rx → Rx
  /-- The capturing group `(\d+)`, greedy; the capture is its integer value. -/
  | cap : Rx

/-- Case-insensitive literal match; on success passes the remaining input to
the continuation. -/
def mLit (p : List Char) (input : List Char) (k : List Char → Option Nat) : Option Nat :=
  match p, input with
  | [], rest => k rest
  | _ :: _, [] => none
  | a :: ps, b :: ss => if a.toLower == b.toLower then mLit ps ss k else none

/-- Greedy `class*` with backtracking: longest first. -/
def mStar (p : Char → Bool) (input : List Char) (k : List Char → Option Nat) : Option Nat :=
  match input with
  | [] => k []
  | c :: rest => if p c then (mStar p rest k).orElse (fun _ => k (c :: rest)) else k (c :: rest)

/-- Greedy `class{0,n}` with backtracking. -/
def mRep (p : Char → Bool) (n : Nat) (input : List Char) (k : List Char → Option Nat) :
    Option Nat :=
  match n, input with
  | 0, _ => k input
  | _ + 1, [] => k []
  | m + 1, c :: rest =>
    if p c then (mRep p m rest k).orElse (fun _ => k (c :: rest)) else k (c :: rest)

/-- Greedy `(\d+)` with backtracking, accumulating the integer value of the
digits consumed so far (Python's `int(m.group(1))`, which never fails on a
`\d+` capture). -/
def mDigitsAux (input : List Char) (acc : Nat) (k : List Char → Nat → Option Nat) :
    Option Nat :=
  match input with
  | [] => k [] acc
  | c :: rest =>
    if c.isDigit then
      (mDigitsAux rest (acc * 10 + (c.toNat - 48)) k).orElse (fun _ => k (c :: rest) acc)
    else k (c :: rest) acc

/-- Piece `(\d+)`: at least one digit, greedy. -/
def mDigits (input : List Char) (k : List Char → Nat → Option Nat) : Option Nat :=
  match input with
  | [] => none
  | c :: rest => if c.isDigit then mDigitsAux rest (c.toNat - 48) k else none

/-- The backtracking matcher: match `r` at the start of `input`, threading the
capture (if any) and calling the continuation with the rest. -/
def mRun : Rx → List Char → Option Nat → (List Char → Option Nat → Option Nat) → Option Nat
  | .lit p, input, cp, k => mLit p input (fun rest => k rest cp)
  | .cls p, input, cp, k =>
    match input with
    | [] => none
    | c :: rest => if p c then k rest cp else none
  | .star p, input, cp, k => mStar p input (fun rest => k rest cp)
  | .rep p n, input, cp, k => mRep p n input (fun rest => k rest cp)
  | .seq a b, input, cp, k => mRun a input cp (fun rest cp' => mRun b rest cp' k)
  | .alt a b, input, cp, k => (mRun a input cp k).orElse (fun _ => mRun b input cp k)
  | .opt a, input, cp, k => (mRun a input cp k).orElse (fun _ => k input cp)
  | .cap, input, _, k => mDigits input (fun rest v => k rest (some v))

/-- Python `re.search`: try the pattern at each start position, leftmost
first; the result is the integer value of capture group 1. -/
def rsearch (r : Rx) : List Char → Option Nat
  | [] => mRun r [] none (fun _ cp => cp)
  | c :: t => (mRun r (c :: t) none (fun _ cp => cp)).orElse (fun _ => rsearch r t)

/-- Sequence a list of regex pieces. -/
def rxcat : List Rx → Rx
  | [] => .lit []
  | [r] => r
  | r :: s :: rest => .seq r (rxcat (s :: rest))

/-- Literal piece from a string. -/
def litS (s : String) : Rx := .lit s.data

/-- Python `\s` (the script's texts contain only ASCII whitespace). -/
def isSpaceCh (c : Char) : Bool :=
  c == ' ' || c == '\t' || c == '\n' || c == '\r' || c == '\x0b' || c == '\x0c'

/-- The class `[:：]`. -/
def isColonCh (c : Char) : Bool := c == ':' || c == '：'

/-- Piece `\s*`. -/
def ws : Rx := .star isSpaceCh

/-- Piece `[:：]?`. -/
def colonOpt : Rx := .opt (.cls isColonCh)

/-- Class `[^\d]` (ASCII digits, as in the texts the script handles). -/
def nonDigit (c : Char) : Bool := !c.isDigit

/-- The three `total_checkins` patterns (lines 204-208). -/
def tcPats : List Rx :=
  [ rxcat [litS "已签到", ws, colonOpt, ws, .cap],
    rxcat [litS "累计签到", ws, colonOpt, ws, .cap],
    rxcat [litS "total", ws, litS "checkin", .opt (litS "s"), ws, colonOpt, ws, .cap] ]

/-- The three `consecutive` patterns (lines 209-213). -/
def consecPats : List Rx :=
  [ rxcat [litS "连续签到", ws, colonOpt, ws, .cap, ws, litS "天"],
    rxcat [litS "连续", .opt (litS "签到"), ws, .cap, ws, litS "天"],
    rxcat [litS "consecutive", ws, litS "day", .opt (litS "s"), ws, colonOpt, ws, .cap] ]

/-- The three `total_points` patterns (lines 214-218). -/
def pointsPats : List Rx :=
  [ rxcat [.alt (litS "积分") (.alt (litS "点数")
             (.alt (litS "score") (.seq (litS "point") (.opt (litS "s"))))),
           ws, colonOpt, ws, .cap],
    rxcat [litS "总积分", ws, colonOpt, ws, .cap],
    rxcat [litS "balance", ws, colonOpt, ws, .cap] ]

/-- The three `gained` patterns (lines 219-223). -/
def gainedPats : List Rx :=
  [ rxcat [litS "本次签到", .opt (.alt (litS "获得") (.alt (litS "奖励") (litS "奖励了"))),
           ws, .cap, ws, .alt (litS "积分") (litS "点")],
    rxcat [litS "获得", .opt (litS "了"), ws, .cap, ws,
           .alt (litS "积分") (.seq (litS "point") (.opt (litS "s")))],
    rxcat [litS "you gained", ws, .cap, ws, litS "point", .opt (litS "s")] ]

/-- The loose fallback `签到[^\d]{0,4}(\d+)` (line 237). -/
def tcFallbackPat : Rx := rxcat [litS "签到", .rep nonDigit 4, .cap]

/-- Try an ordered list of patterns; the first one that matches wins
(`int(m.group(1))` never fails on a `(\d+)` capture, so the `except/continue`
in the source is dead for these patterns). -/
def tryPats (ps : List Rx) (text : List Char) : Option Nat :=
  match ps with
  | [] => none
  | p :: rest =>
    match rsearch p text with
    | some v => some v
    | none => tryPats rest text

/-- The Stats record (`res` dict of line 201). -/
structure Stats where
  total_checkins : Option Nat
  consecutive : Option Nat
  total_points : Option Nat
  gained : Option Nat
deriving DecidableEq, Repr

/-- All-`None` Stats; also stands for the empty dict `{}` the check-in
routines return on failure (no claim distinguishes the two). -/
def emptyStats : Stats := ⟨none, none, none, none⟩

/-- Embedding of `extract_stats_from_html` (lines 191-240), applied to the document's
visible text (`BeautifulSoup(html).get_text(separator="\n", strip=True)` is
the external parser's visible-text extraction, spec §6; for markup-free input
it is the input itself, stripped). -/
def extract_stats_from_html (visText : String) : Stats :=
  let t := visText.data
  let tc0 := tryPats tcPats t
  let tc := match tc0 with
    | some v => some v
    | none => rsearch tcFallbackPat t
  { total_checkins := tc
    consecutive := tryPats consecPats t
    total_points := tryPats pointsPats t
    gained := tryPats gainedPats t }

/-- The C3 fixture text of the spec (§8). -/
def c3Text : String := "签到成功，已签到 10 次，连续签到 3 天，总积分 120，本次获得 5 分"

/-! ## Responses, worlds, and the Outcome Classifier -/

/-- One HTTP response as the core sees it: status code and body text, plus
the external parser's outputs on the body (spec §6): the forms, the texts of
the `p`/`div`/`span`/`strong`/`li` tags in document order, and the visible
text. -/
structure Resp where
  status : Nat
  text : String
  forms : List HtmlForm
  frags : List String
  visText : String
deriving DecidableEq, Repr

/-- The network oracle for one `do_checkin_once` call: the outcome of each
HTTP exchange the code can issue.  `.error e` models a raised transport
exception with message `e`; `none` in the profile list likewise models an
exception (whose message the source discards). -/
structure World where
  getR : Except String Resp
  formPostR : Except String Resp
  directPostR : Except String Resp
  profileR : List (Option Resp)
deriving Repr

/-- The strategy-level requests `do_checkin_once` issues, in order. -/
inductive Act where
  | getCheckin
  | postForm
  | postDirect
deriving DecidableEq, Repr

/-- Embedding of `extract_human_message` (lines 331-346): `frags` are the stripped texts of
the scanned tags in document order (parser output); keeps fragments of length
strictly between 2 and 400, and returns the first one containing an
outcome-related keyword, else the first kept fragment, else `""`. -/
def extract_human_message (html : String) (frags : List String) : String :=
  if html == "" then ""
  else
    let texts := frags.filter fun t => !(t == "") && 2 < t.length && t.length < 400
    let kws : List String := ["签到", "成功", "已签到", "失败", "请登录", "success", "already"]
    match texts.find? (fun t => containsAnyTok kws (strLower t)) with
    | some t => t
    | none => texts.headD ""

/-- Embedding of `fetch_profile_stats` (lines 243-258): probe the profile-path responses in
order; skip transport errors and non-200 responses; return the first mined
Stats with any non-`None` field, else all-`None`. -/
def fetch_profile_stats : List (Option Resp) → Stats
  | [] => emptyStats
  | none :: rest => fetch_profile_stats rest
  | some r :: rest =>
    if r.status != 200 then fetch_profile_stats rest
    else
      let stats := extract_stats_from_html r.visText
      if stats.total_checkins.isSome || stats.consecutive.isSome ||
         stats.total_points.isSome || stats.gained.isSome then stats
      else fetch_profile_stats rest

/-- One key of the `res`/`merged` dicts. -/
inductive StatKey where
  | total_checkins
  | consecutive
  | total_points
  | gained
deriving DecidableEq, Repr

def getStat (s : Stats) : StatKey → Option Nat
  | .total_checkins => s.total_checkins
  | .consecutive => s.consecutive
  | .total_points => s.total_points
  | .gained => s.gained

/-- The merge of lines 280-283 (and its two copies at 308-311, 323-326):
`merged = {**profile_stats}` then every non-`None` check-in-page value
overwrites. -/
def mergeStats (profile stats : Stats) : Stats :=
  { total_checkins := match stats.total_checkins with
      | some v => some v
      | none => profile.total_checkins
    consecutive := match stats.consecutive with
      | some v => some v
      | none => profile.consecutive
    total_points := match stats.total_points with
      | some v => some v
      | none => profile.total_points
    gained := match stats.gained with
      | some v => some v
      | none => profile.gained }

/-- The strategy-1 marker list (line 275). -/
def CHECKIN_MARKERS_GET : List String := ["签到成功", "已签到", "success", "already"]

/-- The strategy-2/3 marker list (lines 305 and 320). -/
def CHECKIN_MARKERS_POST : List String := ["签到成功", "已签到", "success"]

/-- The `<form>`-with-truthy-`action` test of line 288 (`if form and
form.get("action")`), applied to `soup.find("form")`, i.e. only the first
form of the document. -/
def firstFormWithAction (forms : List HtmlForm) : Option HtmlForm :=
  match forms.head? with
  | none => none
  | some f =>
    match f.action with
    | none => none
    | some a => if a == "" then none else some f

/-- The strategy-2 payload (lines 291-299): named, non-`submit`/`button`
inputs with their literal values. -/
def checkinFormPayload (f : HtmlForm) : List (String × String) :=
  f.inputs.foldl (fun payload inp =>
    match inp.nameAttr with
    | none => payload
    | some nm =>
      if nm == "" then payload
      else
        let typ := inputTyp inp
        if typ == "submit" || typ == "button" then payload
        else dictSet payload nm (strOr (inp.valueAttr.getD "") "")) []

/-- Success result assembly shared by the three strategies (lines 276-284,
306-312, 321-327): mine the page, probe the profile paths, merge. -/
def checkinSuccessResult (w : World) (r : Resp) (fallbackMsg : String)
    (acts : List Act) : Bool × String × Stats × List Act :=
  let stats := extract_stats_from_html r.visText
  let profile_stats := fetch_profile_stats w.profileR
  let merged := mergeStats profile_stats stats
  (true, strOr (extract_human_message r.text r.frags) fallbackMsg, merged, acts)

/-- Embedding of `do_checkin_once` (lines 262-328).  Besides the source's
`(success, message, stats)` triple, the embedding returns the list of
strategy requests actually issued, so that "which strategies ran" is
observable in theorems. -/
def do_checkin_once (base : String) (w : World) : Bool × String × Stats × List Act :=
  let checkin_url := urljoinS base CHECKIN_PATH
  match w.getR with
  | .error e => (false, "GET " ++ checkin_url ++ " 失败: " ++ e, emptyStats, [.getCheckin])
  | .ok r =>
    let text_lower := strLower r.text
    if r.status == 200 && containsAnyTok CHECKIN_MARKERS_GET text_lower then
      checkinSuccessResult w r "签到成功（从 GET 返回判断）" [.getCheckin]
    else
      match firstFormWithAction r.forms with
      | some f =>
        let post_url := urljoinS checkin_url (f.action.getD "")
        let _payload := checkinFormPayload f
        match w.formPostR with
        | .error e =>
          (false, "POST " ++ post_url ++ " 失败: " ++ e, emptyStats, [.getCheckin, .postForm])
        | .ok r2 =>
          if containsAnyTok CHECKIN_MARKERS_POST (strLower r2.text) then
            checkinSuccessResult w r2 "签到成功（提交表单）" [.getCheckin, .postForm]
          else
            (false,
             strOr (extract_human_message r2.text r2.frags)
               ("表单提交后未检测到成功关键词（HTTP " ++ toString r2.status ++ "）"),
             emptyStats, [.getCheckin, .postForm])
      | none =>
        match w.directPostR with
        | .error e =>
          (false, "POST " ++ checkin_url ++ " 失败: " ++ e, emptyStats,
           [.getCheckin, .postDirect])
        | .ok rpost =>
          if containsAnyTok CHECKIN_MARKERS_POST (strLower rpost.text) then
            checkinSuccessResult w rpost "签到成功（POST）" [.getCheckin, .postDirect]
          else
            (false,
             strOr (extract_human_message rpost.text rpost.frags)
               ("签到返回 HTTP " ++ toString rpost.status),
             emptyStats, [.getCheckin, .postDirect])

/-! ## Server 酱 notification (`send_serverchan`, lines 350-370) -/

/-- Python `str.upper`, ASCII case mapping. -/
def strUpper (s : String) : String := ⟨s.data.map Char.toUpper⟩

/-- Embedding of `send_serverchan`: empty key short-circuits to `False`; otherwise the
request URL/params are chosen by the `SCT` test and the HTTP POST outcome
(`delivery`: `none` = raised exception, `some st` = status) is reduced to
`st == 200`.  Every exception is caught, so the function is total. -/
def send_serverchan (sckey title desp : String) (delivery : Option Nat) : Bool :=
  if sckey == "" then false
  else
    let s := stripStr sckey
    let isSct := isPrefOf "SCT".data (strUpper s).data
    let _url := if isSct then "https://sct.ftqq.com/" ++ s ++ ".send"
                else "https://sc.ftqq.com/" ++ s ++ ".send"
    let _params := if isSct then [("title", title), ("desp", desp)]
                   else [("text", title), ("desp", desp)]
    match delivery with
    | none => false
    | some st => st == 200

/-! ## Retry/Notify State Machine (`checkin_with_retries`, lines 374-433) -/

/-- One emitted notification: its title, body, and whether delivery
succeeded (the source ignores this last value entirely). -/
structure Notif where
  title : String
  desp : String
  delivered : Bool
deriving DecidableEq, Repr

/-- One run's observable outcome: the returned exit code, the notifications
emitted in order, and how many check-in attempts were performed. -/
structure RunRes where
  exit : Nat
  notifs : List Notif
  attemptsMade : Nat
deriving DecidableEq, Repr

/-- Model of `if serverchan_key: send_serverchan(...)`: emit one notification when the
key is configured; `nsent` indexes the delivery oracle. -/
def maybeNotify (key title desp : String) (deliv : Nat → Option Nat) (nsent : Nat) :
    List Notif × Nat :=
  if key == "" then ([], nsent)
  else ([⟨title, desp, send_serverchan key title desp (deliv nsent)⟩], nsent + 1)

/-- The failure-reason tag `f"尝试#{attempt}: {reason}"` (line 415). -/
def tagReason (attempt : Nat) (reason : String) : String :=
  "尝试#" ++ toString attempt ++ ": " ++ reason

/-- The success notification body (lines 389-407).  The `if stats:` guard of
line 394 is always true there: on success `do_checkin_once` returns the merged
dict, which always carries its four keys and is hence truthy. -/
def successDesp (username msg : String) (stats : Stats) : String :=
  let l0 := ["用户: " ++ username, "结果: 签到成功", "详情: " ++ msg]
  let l1 := l0 ++ (match stats.total_checkins with
    | some sc => ["已签到次数: " ++ toString sc]
    | none => [])
  let l2 := l1 ++ (match stats.consecutive with
    | some cd => ["连续签到: " ++ toString cd ++ " 天"]
    | none => [])
  let l3 := l2 ++ (match stats.total_points with
    | some tp => ["总积分: " ++ toString tp]
    | none => [])
  let l4 := l3 ++ (match stats.gained with
    | some g => ["本次获得: " ++ toString g ++ " 分"]
    | none => [])
  joinWith "\n" l4

/-- The per-attempt failure notification body (line 417). -/
def perFailDesp (username : String) (attempt retries : Nat) (reason base : String) : String :=
  "用户: " ++ username ++ "\n尝试: " ++ toString attempt ++ "/" ++ toString retries ++
  "\n原因: " ++ reason ++ "\n站点: " ++ base ++ "\n"

/-- The final aggregate failure notification body (line 428). -/
def finalDesp (username : String) (retries : Nat) (base : String)
    (failure_reasons : List String) : String :=
  "用户: " ++ username ++ "\n结果: 最终失败（" ++ toString retries ++
  " 次尝试均失败）\n站点: " ++ base ++ "\n\n每次原因汇总:\n" ++
  joinWith "\n" failure_reasons

def successTitle : String := "mjjbox 签到成功 ✅"

def perFailTitle (attempt : Nat) : String :=
  "mjjbox 签到尝试 " ++ toString attempt ++ " 失败 ❌"

def finalFailTitle : String := "mjjbox 签到最终失败 ❌"

/-- The `while attempt < retries` loop of `checkin_with_retries`
(lines 379-433), with `fuel = retries - attempt` making termination
structural.  `worlds i` is the network oracle of attempt `i` (1-based);
`deliv` is the notification-delivery oracle.  Reaching `fuel = 0` is the
`while` condition failing: the `return 1` of line 433 (no notification). -/
def checkinLoop (base key username : String) (retries : Nat) (worlds : Nat → World)
    (deliv : Nat → Option Nat) :
    Nat → Nat → List String → Nat → RunRes
  | 0, attempt, _, _ => ⟨1, [], attempt⟩
  | fuel + 1, attempt, failure_reasons, nsent =>
    let a := attempt + 1
    let res := do_checkin_once base (worlds a)
    let success := res.1
    let msg := res.2.1
    let stats := res.2.2.1
    if success then
      let mn := maybeNotify key successTitle (successDesp username msg stats) deliv nsent
      ⟨0, mn.1, a⟩
    else
      let reason := strOr msg "未获得失败原因"
      let reasons' := failure_reasons ++ [tagReason a reason]
      let mn1 :=
        maybeNotify key (perFailTitle a) (perFailDesp username a retries reason base) deliv nsent
      if a < retries then
        let rest := checkinLoop base key username retries worlds deliv fuel a reasons' mn1.2
        ⟨rest.exit, mn1.1 ++ rest.notifs, rest.attemptsMade⟩
      else
        let mn2 :=
          maybeNotify key finalFailTitle (finalDesp username retries base reasons') deliv mn1.2
        ⟨1, mn1.1 ++ mn2.1, a⟩

/-- Embedding of `checkin_with_retries` (lines 374-433): run the loop from attempt 0 with
no recorded reasons. -/
def checkin_with_retries (base key username : String) (retries : Nat)
    (worlds : Nat → World) (deliv : Nat → Option Nat) : RunRes :=
  checkinLoop base key username retries worlds deliv retries 0 [] 0

/-! ## Credentials (`load_credentials`, lines 35-55) -/

/-- The key→value record the function returns. -/
structure Cred where
  username : String
  password : String
  serverchan : String
  base : String
deriving DecidableEq, Repr

/-- Python `data.get(k)`: first (unique, since `data` is a dict) binding. -/
def dictGet (d : List (String × String)) (k : String) : Option String :=
  (d.find? fun kv => kv.1 == k).map fun kv => kv.2

/-- The keys excluded by the `next(...)` generator of line 50. -/
def EXCLUDED_KEYS : List String := ["password", "passwd", "pass", "serverchan", "base"]

/-- Model of `next((v for k, v in data.items() if k.lower() not in (...)), None)`:
the value of the first key whose lowercased name is not excluded. -/
def firstQualValue (d : List (String × String)) : Option String :=
  (d.find? fun kv => !(EXCLUDED_KEYS.contains (strLower kv.1))).map fun kv => kv.2

/-- The password chain `data.get("password") or data.get("passwd") or
data.get("pass")` (line 51). -/
def passwordOf (d : List (String × String)) : Option String :=
  pyOr (pyOr (dictGet d "password") (dictGet d "passwd")) (dictGet d "pass")

/-- The username chain of line 50. -/
def usernameOf (d : List (String × String)) : Option String :=
  pyOr (pyOr (dictGet d "username") (dictGet d "email")) (firstQualValue d)

/-- Lines 47-55 of `load_credentials`, applied to the already-parsed dict
(`data`): empty-dict check, the `or`-chains, the truthiness check of line 53,
and the returned record. -/
def credFromData (d : List (String × String)) : Except String Cred :=
  if d.isEmpty then .error "credentials file is empty"
  else
    let base := (dictGet d "base").getD DEFAULT_BASE
    let username := usernameOf d
    let password := passwordOf d
    let serverchan := (pyOr (dictGet d "serverchan") (some "")).getD ""
    if !truthyB username || !truthyB password then
      .error "credentials must contain username (or email) and password"
    else
      .ok ⟨username.getD "", password.getD "", serverchan, base⟩

/-- Python `line.split("=", 1)` when `"=" in line`: the part before the first
`=` and everything after it. -/
def splitFirstEq : List Char → Option (List Char × List Char)
  | [] => none
  | c :: rest =>
    if c == '=' then some ([], rest)
    else (splitFirstEq rest).map fun kv => (c :: kv.1, kv.2)

/-- The parsing loop of lines 38-46: strip each line, skip blank lines and
`#` comments, split at the first `=`, strip key and value, store in the dict. -/
def parseCredLines (lines : List String) : List (String × String) :=
  lines.foldl (fun data line =>
    let l := stripStr line
    if l == "" || isPrefOf "#".data l.data then data
    else
      match splitFirstEq l.data with
      | none => data
      | some kv => dictSet data (stripStr ⟨kv.1⟩) (stripStr ⟨kv.2⟩)) []

/-- Embedding of `load_credentials` (lines 35-55) from the file's lines (the file-existence
check of line 36 concerns the filesystem collaborator and is outside the
model). -/
def load_credentials (lines : List String) : Except String Cred :=
  credFromData (parseCredLines lines)

/-! ## Helper lemmas -/

theorem strData_append (a b : String) : (a ++ b).data = a.data ++ b.data := by
  cases a; cases b; rfl

/-- Containment in order: `ChainSub s rs` says the strings of `rs` occur in `s`, in order, at disjoint
positions (the body "contains all recorded reasons in attempt order"). -/
def ChainSub : List Char → List String → Prop
  | _, [] => True
  | s, r :: rs => ∃ pre post, s = pre ++ r.data ++ post ∧ ChainSub post rs

theorem chainSub_prepend (x : List Char) {s : List Char} {rs : List String}
    (h : ChainSub s rs) : ChainSub (x ++ s) rs := by
  cases rs with
  | nil => trivial
  | cons r rest =>
    obtain ⟨pre, post, heq, hc⟩ := h
    exact ⟨x ++ pre, post, by rw [heq]; simp [List.append_assoc], hc⟩

/-- Joining `prefix ++ payload` pieces with `"\n"` yields a string containing
all the payloads in order. -/
theorem chainSub_joinPairs (ts : List (String × String)) :
    ChainSub (joinWith "\n" (ts.map fun t => t.1 ++ t.2)).data (ts.map fun t => t.2) := by
  induction ts with
  | nil => trivial
  | cons t rest ih =>
    cases rest with
    | nil =>
      refine ⟨t.1.data, [], ?_, trivial⟩
      rw [List.append_nil]
      exact strData_append t.1 t.2
    | cons t2 rest2 =>
      refine ⟨t.1.data, ("\n" ++ joinWith "\n" ((t2 :: rest2).map fun t => t.1 ++ t.2)).data,
        ?_, ?_⟩
      · show ((t.1 ++ t.2) ++ "\n" ++ joinWith "\n" ((t2 :: rest2).map fun t => t.1 ++ t.2)).data
          = _
        simp [strData_append, List.append_assoc]
      · rw [strData_append]
        exact chainSub_prepend _ ih

/-! ## C1 -/

/-- C1 (counterexample): blind mode does not produce 25 payloads — the
password-hint list has four entries, so the Cartesian product has 5 × 4 = 20
elements. -/
theorem c1_counterexample : ¬ (heuristic_payload "u" "p").length = 25 := by decide

/-- C1 (amended): for any credentials, blind mode produces exactly 20
candidate payloads in a fixed deterministic order — the full Cartesian product
of the five username hints and the four password hints, outer loop over the
username hints — each payload being exactly the two-entry mapping
`{hint_u: username, hint_p: password}`. -/
theorem c1_blind_payloads_amended (u p : String) :
    (heuristic_payload u p).length = 20 ∧
    heuristic_payload u p =
      [ [("user", u), ("pass", p)], [("user", u), ("password", p)],
        [("user", u), ("passwd", p)], [("user", u), ("pwd", p)],
        [("username", u), ("pass", p)], [("username", u), ("password", p)],
        [("username", u), ("passwd", p)], [("username", u), ("pwd", p)],
        [("email", u), ("pass", p)], [("email", u), ("password", p)],
        [("email", u), ("passwd", p)], [("email", u), ("pwd", p)],
        [("login", u), ("pass", p)], [("login", u), ("password", p)],
        [("login", u), ("passwd", p)], [("login", u), ("pwd", p)],
        [("account", u), ("pass", p)], [("account", u), ("password", p)],
        [("account", u), ("passwd", p)], [("account", u), ("pwd", p)] ] :=
  ⟨rfl, rfl⟩

/-! ## C3 -/

/-- C3 (counterexample): on the spec's fixture text the Stats Miner does not
extract `gained = 5` — none of the three `gained` patterns matches
"本次获得 5 分" (the first needs the literal "本次签到", the other two need
"积分"/"points" after the digits, but the text has a bare "分"). -/
theorem c3_counterexample : ¬ (extract_stats_from_html c3Text).gained = some 5 := by decide

/-- C3 (amended): on the fixture text the Stats Miner returns
`total_checkins = 10`, `consecutive = 3`, `total_points = 120`, and
`gained = None`. -/
theorem c3_stats_amended :
    extract_stats_from_html c3Text =
      { total_checkins := some 10, consecutive := some 3,
        total_points := some 120, gained := none } := by decide

/-! ## C8 -/

/-- C8: for every pair of Stats values and every statistic key, the merge used
by `do_checkin_once` keeps the first non-`None` value, the check-in-page value
beating the profile-page value; and the stats `do_checkin_once` returns on a
strategy-1 success are exactly this merge of the profile-probe stats and the
stats mined from the success response. -/
theorem c8_merge_first_nonnone :
    (∀ (profile stats : Stats) (k : StatKey),
      getStat (mergeStats profile stats) k =
        match getStat stats k with
        | some v => some v
        | none => getStat profile k) ∧
    (∀ (base : String) (w : World) (r : Resp), w.getR = .ok r →
      (r.status == 200 && containsAnyTok CHECKIN_MARKERS_GET (strLower r.text)) = true →
      (do_checkin_once base w).2.2.1 =
        mergeStats (fetch_profile_stats w.profileR) (extract_stats_from_html r.visText)) := by
  constructor
  · intro profile stats k
    cases k <;> rfl
  · intro base w r hget hcond
    simp only [do_checkin_once, hget, hcond, if_true, checkinSuccessResult]

/-- C8 (witness). -/
theorem c8_merge_first_nonnone_witness :
    (do_checkin_once "b" ⟨.ok ⟨200, "success", [], [], "success"⟩, .error "x", .error "x", []⟩).2.2.1
      = mergeStats (fetch_profile_stats []) (extract_stats_from_html "success") :=
  c8_merge_first_nonnone.2 "b" ⟨.ok ⟨200, "success", [], [], "success"⟩, .error "x", .error "x", []⟩
    ⟨200, "success", [], [], "success"⟩ rfl (by decide)

/-! ## C10 -/

/-- C10 (counterexample): a parsed map whose first non-excluded key carries an
empty value and which does contain a password still raises the fatal
configuration error — the claim predicted it would silently use the empty
value as the username. -/
theorem c10_counterexample :
    credFromData [("foo", ""), ("password", "x")] =
      .error "credentials must contain username (or email) and password" := rfl

/-- C10 (amended): if the parsed map is non-empty and contains neither a
`username` nor an `email` key, `load_credentials` uses as the username the
value of the first key whose lowercased name is not in
{password, passwd, pass, serverchan, base}, provided that value is non-empty;
it raises the fatal configuration error exactly when no such key exists, when
that first value is the empty string, or when the password chain
(`password`/`passwd`/`pass`, Python-truthy) yields nothing. -/
theorem c10_first_qualifying_amended (d : List (String × String))
    (hne : d.isEmpty = false)
    (hu : dictGet d "username" = none) (he : dictGet d "email" = none) :
    (∀ v, firstQualValue d = some v → v ≠ "" → truthyB (passwordOf d) = true →
      credFromData d = .ok ⟨v, (passwordOf d).getD "",
        (pyOr (dictGet d "serverchan") (some "")).getD "",
        (dictGet d "base").getD DEFAULT_BASE⟩) ∧
    (credFromData d = .error "credentials must contain username (or email) and password" ↔
      (firstQualValue d = none ∨ firstQualValue d = some "" ∨
        truthyB (passwordOf d) = false)) := by
  have husr : usernameOf d = firstQualValue d := by
    simp [usernameOf, hu, he, pyOr]
  constructor
  · intro v hv hvne hp
    have ht : truthyB (usernameOf d) = true := by
      rw [husr, hv]; simp [truthyB, hvne]
    simp only [credFromData, hne, ht, hp, Bool.not_true, Bool.or_self, Bool.false_eq_true,
      if_false, husr, hv, Option.getD_some]
    simp [truthyB, hvne]
  · rcases hq : firstQualValue d with _ | v
    · have ht : truthyB (usernameOf d) = false := by rw [husr, hq]; rfl
      simp [credFromData, hne, ht]
    · by_cases hv : v = ""
      · subst hv
        have ht : truthyB (usernameOf d) = false := by rw [husr, hq]; rfl
        simp [credFromData, hne, ht]
      · have ht : truthyB (usernameOf d) = true := by
          rw [husr, hq]; simp [truthyB, hv]
        cases hp : truthyB (passwordOf d)
        · simp [credFromData, hne, ht, hp, hv]
        · simp [credFromData, hne, ht, hp, hv]

/-- C10 (witness). -/
theorem c10_first_qualifying_witness :
    credFromData [("foo", "bar"), ("password", "x")] =
      .ok ⟨"bar", (passwordOf [("foo", "bar"), ("password", "x")]).getD "",
        (pyOr (dictGet [("foo", "bar"), ("password", "x")] "serverchan") (some "")).getD "",
        (dictGet [("foo", "bar"), ("password", "x")] "base").getD DEFAULT_BASE⟩ :=
  (c10_first_qualifying_amended [("foo", "bar"), ("password", "x")] rfl rfl rfl).1
    "bar" rfl (by decide) (by decide)

/-! ## C2 / C6: characterizing the per-form scan -/

/-- The password-match condition of line 75, per input: a non-empty `name`,
a non-`hidden` effective type, and either type `password` or a password hint
in the lowercased name.  Returns the name on a match. -/
def passCandidate (inp : FormInput) : Option String :=
  match inp.nameAttr with
  | none => none
  | some nm =>
    if nm == "" then none
    else
      let typ := inputTyp inp
      if typ == "hidden" then none
      else if typ == "password" || anyHintIn PASS_HINTS (strLower nm) then some nm
      else none

/-- The username-match condition of line 77, per input: a non-empty `name`,
a non-`hidden` effective type, and either type `text`/`email` or a username
hint in the lowercased name. -/
def userCandidate (inp : FormInput) : Option String :=
  match inp.nameAttr with
  | none => none
  | some nm =>
    if nm == "" then none
    else
      let typ := inputTyp inp
      if typ == "hidden" then none
      else if typ == "text" || typ == "email" || anyHintIn USER_HINTS (strLower nm) then some nm
      else none

/-- The last `some` of a list of options (what repeated overwriting computes). -/
def lastSomeStr : List (Option String) → Option String
  | [] => none
  | x :: rest =>
    match lastSomeStr rest with
    | some y => some y
    | none => x

/-- The first `some` of a list of options (what set-once computes). -/
def firstSomeStr : List (Option String) → Option String
  | [] => none
  | x :: rest =>
    match x with
    | some y => some y
    | none => firstSomeStr rest

/-- The scan's password component: the last matching input overrides, falling
back to the initial accumulator. -/
theorem scanInputs_pwd (l : List FormInput) :
    ∀ un pw hid, (scanInputs l un pw hid).2.1 =
      match lastSomeStr (l.map passCandidate) with
      | some y => some y
      | none => pw := by
  induction l with
  | nil => intro un pw hid; rfl
  | cons inp rest ih =>
    intro un pw hid
    simp only [List.map_cons, lastSomeStr]
    cases hn : inp.nameAttr with
    | none =>
      simp only [scanInputs, hn, passCandidate, ih]
      cases lastSomeStr (rest.map passCandidate) <;> rfl
    | some nm =>
      cases he : (nm == "") with
      | true =>
        simp only [scanInputs, hn, he, passCandidate, if_true, ih]
        cases lastSomeStr (rest.map passCandidate) <;> rfl
      | false =>
        cases hh : (inputTyp inp == "hidden") with
        | true =>
          simp only [scanInputs, hn, he, hh, passCandidate, Bool.false_eq_true, if_false,
            if_true, ih]
          cases lastSomeStr (rest.map passCandidate) <;> rfl
        | false =>
          cases hp : (inputTyp inp == "password" || anyHintIn PASS_HINTS (strLower nm)) with
          | true =>
            simp only [scanInputs, hn, he, hh, hp, passCandidate, Bool.false_eq_true, if_false,
              if_true, ih]
            cases lastSomeStr (rest.map passCandidate) <;> rfl
          | false =>
            simp only [scanInputs, hn, he, hh, hp, passCandidate, Bool.false_eq_true, if_false,
              ih]
            cases lastSomeStr (rest.map passCandidate) <;> rfl

/-- The scan's username component: set-once, so the first matching input wins;
an already-set accumulator is never overwritten. -/
theorem scanInputs_uname (l : List FormInput) :
    ∀ un pw hid, (scanInputs l un pw hid).1 =
      match un with
      | some y => some y
      | none => firstSomeStr (l.map userCandidate) := by
  induction l with
  | nil => intro un pw hid; cases un <;> rfl
  | cons inp rest ih =>
    intro un pw hid
    simp only [List.map_cons, firstSomeStr]
    cases hn : inp.nameAttr with
    | none =>
      simp only [scanInputs, hn, userCandidate, ih]
    | some nm =>
      cases he : (nm == "") with
      | true =>
        simp only [scanInputs, hn, he, userCandidate, if_true, ih]
      | false =>
        cases hh : (inputTyp inp == "hidden") with
        | true =>
          simp only [scanInputs, hn, he, hh, userCandidate, Bool.false_eq_true, if_false,
            if_true, ih]
        | false =>
          cases hu : (inputTyp inp == "text" || inputTyp inp == "email" ||
              anyHintIn USER_HINTS (strLower nm)) with
          | true =>
            simp only [scanInputs, hn, he, hh, hu, userCandidate, Bool.false_eq_true, if_false,
              if_true, Bool.true_and, ih]
            cases un <;> simp [Option.isNone]
          | false =>
            simp only [scanInputs, hn, he, hh, hu, userCandidate, Bool.false_eq_true, if_false,
              Bool.false_and, ih]

/-! ## C2 -/

/-- C2 (counterexample): with two text inputs named `pass1` and `pass2` (both
password-hinted), the classifier returns `pass2` — the LAST matching input,
not the first; and a `checkbox`-typed input named `mypass` IS selected as the
password field even though its type is neither `password` nor
unset/`text`/`email`. -/
theorem c2_counterexample :
    (find_login_form
        [⟨none, [⟨some "pass1", some "text", none⟩, ⟨some "pass2", some "text", none⟩]⟩]).map
      (fun t => t.2.2.1) = some "pass2" ∧
    ¬ ("pass2" : String) = "pass1" ∧
    find_login_form [⟨none, [⟨some "mypass", some "checkbox", none⟩]⟩] =
      some (⟨none, [⟨some "mypass", some "checkbox", none⟩]⟩, none, "mypass", []) := by
  refine ⟨by decide, by decide, by decide⟩

/-- C2 (amended): for every document the Form Classifier selects a form on,
an input becomes the password field exactly when it has a non-empty name, an
effective type other than `hidden`, and either type `password` or a lowercased
name containing one of {pass, password, passwd, pwd} (any non-hidden type
qualifies for the name-hint branch); when several inputs of the form match,
the LAST matching input in document order is selected. -/
theorem c2_password_selection_amended (doc : List HtmlForm) (f : HtmlForm)
    (un : Option String) (pw : String) (hid : List (String × String))
    (h : find_login_form doc = some (f, un, pw, hid)) :
    lastSomeStr (f.inputs.map passCandidate) = some pw := by
  induction doc with
  | nil => simp [find_login_form] at h
  | cons g rest ih =>
    have hscan := scanInputs_pwd g.inputs none none []
    simp only [find_login_form] at h
    cases hl : lastSomeStr (g.inputs.map passCandidate) with
    | none =>
      rw [hl] at hscan
      rcases hs : scanInputs g.inputs none none [] with ⟨un0, pw0, hid0⟩
      rw [hs] at hscan
      simp only [hs] at h
      simp only at hscan
      rw [hscan] at h
      exact ih h
    | some y =>
      rw [hl] at hscan
      rcases hs : scanInputs g.inputs none none [] with ⟨un0, pw0, hid0⟩
      rw [hs] at hscan
      simp only [hs] at h
      simp only at hscan
      rw [hscan] at h
      simp only [Option.some.injEq, Prod.mk.injEq] at h
      obtain ⟨h1, h2, h3, h4⟩ := h
      subst h1
      subst h3
      exact hl

/-- C2 (witness). -/
theorem c2_password_selection_witness :
    lastSomeStr ((⟨none, [⟨some "pass1", some "text", none⟩, ⟨some "pass2", some "text", none⟩]⟩
        : HtmlForm).inputs.map passCandidate) = some "pass2" :=
  c2_password_selection_amended
    [⟨none, [⟨some "pass1", some "text", none⟩, ⟨some "pass2", some "text", none⟩]⟩]
    ⟨none, [⟨some "pass1", some "text", none⟩, ⟨some "pass2", some "text", none⟩]⟩
    (some "pass1") "pass2" [] (by decide)

/-! ## C6 -/

/-- C6 (counterexample): a single text input named `pass` becomes BOTH the
username field and the password field — the code never excludes the chosen
password field when picking the username, so the two returned names
coincide. -/
theorem c6_counterexample :
    find_login_form [⟨none, [⟨some "pass", some "text", none⟩]⟩] =
      some (⟨none, [⟨some "pass", some "text", none⟩]⟩, some "pass", "pass", []) := by decide

/-- C6 (amended): for every form the Form Classifier selects, the username
field is the first input in document order with a non-empty name, an effective
type other than `hidden`, and either type `text`/`email` or a lowercased name
containing one of {user, username, email, login, account} — with NO exclusion
of the input chosen as the password field, so the two returned names can
coincide. -/
theorem c6_username_selection_amended (doc : List HtmlForm) (f : HtmlForm)
    (un : Option String) (pw : String) (hid : List (String × String))
    (h : find_login_form doc = some (f, un, pw, hid)) :
    un = firstSomeStr (f.inputs.map userCandidate) := by
  induction doc with
  | nil => simp [find_login_form] at h
  | cons g rest ih =>
    have hscan := scanInputs_uname g.inputs none none []
    simp only [find_login_form] at h
    rcases hs : scanInputs g.inputs none none [] with ⟨un0, pw0, hid0⟩
    rw [hs] at hscan
    simp only at hscan
    simp only [hs] at h
    cases hp : pw0 with
    | none =>
      rw [hp] at h
      exact ih h
    | some p =>
      rw [hp] at h
      simp only [Option.some.injEq, Prod.mk.injEq] at h
      obtain ⟨h1, h2, h3, h4⟩ := h
      subst h1
      subst h2
      exact hscan

/-- C6 (witness). -/
theorem c6_username_selection_witness :
    (some "pass" : Option String) =
      firstSomeStr ((⟨none, [⟨some "pass", some "text", none⟩]⟩
        : HtmlForm).inputs.map userCandidate) :=
  c6_username_selection_amended [⟨none, [⟨some "pass", some "text", none⟩]⟩]
    ⟨none, [⟨some "pass", some "text", none⟩]⟩ (some "pass") "pass" [] (by decide)

/-! ## C5 / C7: the three check-in strategies -/

theorem containsAnyTok_of_mem (ks : List String) (k t : String)
    (hm : k ∈ ks) (h : subStr k.data t.data = true) : containsAnyTok ks t = true := by
  simp only [containsAnyTok, List.any_eq_true]
  exact ⟨k, hm, h⟩

/-- C5 (counterexample): the marker sets are NOT identical across the three
strategies — a response body "already" contains a strategy-1 marker (and makes
strategy 1 succeed on a 200 GET), yet a strategy-3 response with the very same
body is classified as failure, because "already" is missing from the
strategy-2/3 marker list. -/
theorem c5_counterexample :
    containsAnyTok CHECKIN_MARKERS_GET (strLower "already") = true ∧
    containsAnyTok CHECKIN_MARKERS_POST (strLower "already") = false ∧
    (do_checkin_once "b" ⟨.ok ⟨200, "already", [], [], "already"⟩, .error "e", .error "e", []⟩).1
      = true ∧
    (do_checkin_once "b" ⟨.ok ⟨200, "x", [], [], "x"⟩, .error "e",
        .ok ⟨200, "already", [], [], "already"⟩, []⟩).1 = false := by
  exact ⟨by decide, by decide, by decide, by decide⟩

/-- C5 (amended): strategy 1 declares success exactly when the GET response
has status 200 AND its lowercased body contains one of
{签到成功, 已签到, success, already}; strategies 2 and 3 declare success
exactly when the respective POST response's lowercased body contains one of
{签到成功, 已签到, success} — the same set for 2 and 3, but strategy 1's set
additionally contains "already" (and strategy 1 alone checks the status
code). -/
theorem c5_markers_amended (base : String) :
    (∀ (w : World) (r : Resp), w.getR = .ok r →
      (((do_checkin_once base w).1 = true ∧
        (do_checkin_once base w).2.2.2 = [Act.getCheckin]) ↔
        (r.status == 200 && containsAnyTok CHECKIN_MARKERS_GET (strLower r.text)) = true)) ∧
    (∀ (w : World) (r : Resp) (f : HtmlForm) (r2 : Resp), w.getR = .ok r →
      (r.status == 200 && containsAnyTok CHECKIN_MARKERS_GET (strLower r.text)) = false →
      firstFormWithAction r.forms = some f → w.formPostR = .ok r2 →
      (do_checkin_once base w).1 = containsAnyTok CHECKIN_MARKERS_POST (strLower r2.text)) ∧
    (∀ (w : World) (r : Resp) (r3 : Resp), w.getR = .ok r →
      (r.status == 200 && containsAnyTok CHECKIN_MARKERS_GET (strLower r.text)) = false →
      firstFormWithAction r.forms = none → w.directPostR = .ok r3 →
      (do_checkin_once base w).1 = containsAnyTok CHECKIN_MARKERS_POST (strLower r3.text)) ∧
    CHECKIN_MARKERS_GET = CHECKIN_MARKERS_POST ++ ["already"] := by
  refine ⟨?_, ?_, ?_, by decide⟩
  · intro w r hget
    cases hcond : (r.status == 200 && containsAnyTok CHECKIN_MARKERS_GET (strLower r.text)) with
    | true => simp [do_checkin_once, hget, hcond, checkinSuccessResult]
    | false =>
      simp only [do_checkin_once, hget, hcond, Bool.false_eq_true, if_false]
      cases hff : firstFormWithAction r.forms with
      | some f =>
        simp only [hff]
        cases hfp : w.formPostR with
        | error e => simp [hfp]
        | ok r2 =>
          simp only [hfp]
          cases hm : containsAnyTok CHECKIN_MARKERS_POST (strLower r2.text) with
          | true => simp [hm, checkinSuccessResult]
          | false => simp [hm]
      | none =>
        simp only [hff]
        cases hdp : w.directPostR with
        | error e => simp [hdp]
        | ok r3 =>
          simp only [hdp]
          cases hm : containsAnyTok CHECKIN_MARKERS_POST (strLower r3.text) with
          | true => simp [hm, checkinSuccessResult]
          | false => simp [hm]
  · intro w r f r2 hget hcond hff hfp
    simp only [do_checkin_once, hget, hcond, Bool.false_eq_true, if_false, hff, hfp]
    cases hm : containsAnyTok CHECKIN_MARKERS_POST (strLower r2.text) with
    | true => simp [hm, checkinSuccessResult]
    | false => simp [hm]
  · intro w r r3 hget hcond hff hdp
    simp only [do_checkin_once, hget, hcond, Bool.false_eq_true, if_false, hff, hdp]
    cases hm : containsAnyTok CHECKIN_MARKERS_POST (strLower r3.text) with
    | true => simp [hm, checkinSuccessResult]
    | false => simp [hm]

/-- C5 (witness). -/
theorem c5_markers_witness :
    (((do_checkin_once "b" ⟨.ok ⟨200, "already", [], [], "already"⟩, .error "e", .error "e", []⟩).1
        = true ∧
      (do_checkin_once "b" ⟨.ok ⟨200, "already", [], [], "already"⟩, .error "e", .error "e", []⟩
        ).2.2.2 = [Act.getCheckin]) ↔
      ((⟨200, "already", [], [], "already"⟩ : Resp).status == 200 &&
        containsAnyTok CHECKIN_MARKERS_GET
          (strLower (⟨200, "already", [], [], "already"⟩ : Resp).text)) = true) ∧
    (do_checkin_once "b" ⟨.ok ⟨200, "x", [⟨some "/do", []⟩], [], "x"⟩,
        .ok ⟨200, "success", [], [], "success"⟩, .error "e", []⟩).1 =
      containsAnyTok CHECKIN_MARKERS_POST
        (strLower (⟨200, "success", [], [], "success"⟩ : Resp).text) ∧
    (do_checkin_once "b" ⟨.ok ⟨200, "x", [], [], "x"⟩, .error "e",
        .ok ⟨200, "success", [], [], "success"⟩, []⟩).1 =
      containsAnyTok CHECKIN_MARKERS_POST
        (strLower (⟨200, "success", [], [], "success"⟩ : Resp).text) :=
  ⟨(c5_markers_amended "b").1 ⟨.ok ⟨200, "already", [], [], "already"⟩, .error "e", .error "e", []⟩
      ⟨200, "already", [], [], "already"⟩ rfl,
   (c5_markers_amended "b").2.1 ⟨.ok ⟨200, "x", [⟨some "/do", []⟩], [], "x"⟩,
      .ok ⟨200, "success", [], [], "success"⟩, .error "e", []⟩
      ⟨200, "x", [⟨some "/do", []⟩], [], "x"⟩ ⟨some "/do", []⟩
      ⟨200, "success", [], [], "success"⟩ rfl (by decide) (by decide) rfl,
   (c5_markers_amended "b").2.2.1 ⟨.ok ⟨200, "x", [], [], "x"⟩, .error "e",
      .ok ⟨200, "success", [], [], "success"⟩, []⟩
      ⟨200, "x", [], [], "x"⟩ ⟨200, "success", [], [], "success"⟩ rfl (by decide) rfl rfl⟩

/-- C7 (counterexample): a check-in GET response whose body contains "success"
but whose status is 500, with no form in the page, does NOT terminate at
strategy 1 — the code requires status 200 for strategy 1, so it falls through
and performs the blind POST of strategy 3. -/
theorem c7_counterexample :
    (do_checkin_once "b" ⟨.ok ⟨500, "success", [], [], "success"⟩, .error "e",
        .ok ⟨200, "", [], [], ""⟩, []⟩).1 = false ∧
    (do_checkin_once "b" ⟨.ok ⟨500, "success", [], [], "success"⟩, .error "e",
        .ok ⟨200, "", [], [], ""⟩, []⟩).2.2.2 = [Act.getCheckin, Act.postDirect] := by
  exact ⟨by decide, by decide⟩

/-- C7 (amended): for every check-in GET response with status 200 whose
lowercased body contains "success" and which contains no form,
`do_checkin_once` succeeds via strategy 1 and issues no further request —
neither the form submission of strategy 2 nor the blind POST of strategy 3. -/
theorem c7_strategy1_amended (base : String) (w : World) (r : Resp)
    (hget : w.getR = .ok r) (hst : r.status = 200)
    (hsucc : subStr "success".data (strLower r.text).data = true)
    (_hforms : r.forms = []) :
    (do_checkin_once base w).1 = true ∧
    (do_checkin_once base w).2.2.2 = [Act.getCheckin] := by
  have hcond : (r.status == 200 && containsAnyTok CHECKIN_MARKERS_GET (strLower r.text))
      = true := by
    have h2 : containsAnyTok CHECKIN_MARKERS_GET (strLower r.text) = true :=
      containsAnyTok_of_mem _ "success" _ (by decide) hsucc
    simp [hst, h2]
  simp [do_checkin_once, hget, hcond, checkinSuccessResult]

/-- C7 (witness). -/
theorem c7_strategy1_witness :
    (do_checkin_once "b" ⟨.ok ⟨200, "success", [], [], "success"⟩, .error "e", .error "e", []⟩).1
      = true ∧
    (do_checkin_once "b" ⟨.ok ⟨200, "success", [], [], "success"⟩, .error "e", .error "e", []⟩
      ).2.2.2 = [Act.getCheckin] :=
  c7_strategy1_amended "b" ⟨.ok ⟨200, "success", [], [], "success"⟩, .error "e", .error "e", []⟩
    ⟨200, "success", [], [], "success"⟩ rfl rfl (by decide) rfl

/-! ## C4 / C9: the retry loop -/

/-- The reason string the loop records for a failed attempt against world `w`
(line 414: `msg or "未获得失败原因"`). -/
def reasonOf (base : String) (w : World) : String :=
  strOr (do_checkin_once base w).2.1 "未获得失败原因"

/-- The tagged failure reasons the loop accumulates for attempts
`attempt+1 .. attempt+fuel`. -/
def failTagsFrom (base : String) (worlds : Nat → World) : Nat → Nat → List String
  | _, 0 => []
  | attempt, fuel + 1 =>
    tagReason (attempt + 1) (reasonOf base (worlds (attempt + 1))) ::
      failTagsFrom base worlds (attempt + 1) fuel

/-- When every remaining attempt fails and a notification key is configured,
the loop returns exit code 1 after `retries` attempts, and its notification
list ends with the single final aggregate notification, whose body is built
from the accumulated reasons; all earlier notifications are per-attempt
failure notifications. -/
theorem checkinLoop_allFail (base key username : String) (retries : Nat)
    (worlds : Nat → World) (deliv : Nat → Option Nat)
    (hkey : (key == "") = false) :
    ∀ fuel attempt acc nsent, attempt + fuel = retries → 0 < fuel →
      (∀ i, attempt < i → i ≤ retries → (do_checkin_once base (worlds i)).1 = false) →
      ∃ ns b,
        checkinLoop base key username retries worlds deliv fuel attempt acc nsent =
          ⟨1, ns ++ [⟨finalFailTitle,
            finalDesp username retries base (acc ++ failTagsFrom base worlds attempt fuel), b⟩],
            retries⟩ ∧
        ∀ n ∈ ns, ∃ a, n.title = perFailTitle a := by
  intro fuel
  induction fuel with
  | zero =>
    intro attempt acc nsent _ h0 _
    exact absurd h0 (by omega)
  | succ f ih =>
    intro attempt acc nsent hsum hpos hfail
    have hfa : (do_checkin_once base (worlds (attempt + 1))).1 = false :=
      hfail (attempt + 1) (by omega) (by omega)
    by_cases hlt : attempt + 1 < retries
    · have hf0 : 0 < f := by omega
      obtain ⟨ns, b, heq, hns⟩ :=
        ih (attempt + 1)
          (acc ++ [tagReason (attempt + 1) (reasonOf base (worlds (attempt + 1)))]) (nsent + 1)
          (by omega) hf0 (fun i hi1 hi2 => hfail i (by omega) hi2)
      simp only [reasonOf] at heq
      refine ⟨⟨perFailTitle (attempt + 1),
          perFailDesp username (attempt + 1) retries (reasonOf base (worlds (attempt + 1))) base,
          send_serverchan key (perFailTitle (attempt + 1))
            (perFailDesp username (attempt + 1) retries (reasonOf base (worlds (attempt + 1)))
              base) (deliv nsent)⟩ :: ns, b, ?_, ?_⟩
      · simp only [checkinLoop, hfa, Bool.false_eq_true, if_false, maybeNotify, hkey,
          hlt, if_true, heq]
        simp [failTagsFrom, reasonOf, RunRes.mk.injEq, List.append_assoc]
      · intro n hn
        rcases List.mem_cons.mp hn with hn | hn
        · exact ⟨attempt + 1, by rw [hn]⟩
        · exact hns n hn
    · have hf0 : f = 0 := by omega
      have har : attempt + 1 = retries := by omega
      subst hf0
      refine ⟨[⟨perFailTitle (attempt + 1),
          perFailDesp username (attempt + 1) retries (reasonOf base (worlds (attempt + 1))) base,
          send_serverchan key (perFailTitle (attempt + 1))
            (perFailDesp username (attempt + 1) retries (reasonOf base (worlds (attempt + 1)))
              base) (deliv nsent)⟩],
        send_serverchan key finalFailTitle
          (finalDesp username retries base
            (acc ++ [tagReason (attempt + 1) (reasonOf base (worlds (attempt + 1)))]))
          (deliv (nsent + 1)), ?_, ?_⟩
      · simp only [checkinLoop, hfa, Bool.false_eq_true, if_false, maybeNotify, hkey,
          hlt, if_false, failTagsFrom]
        simp [har, reasonOf, RunRes.mk.injEq]
      · intro n hn
        rcases List.mem_cons.mp hn with hn | hn
        · exact ⟨attempt + 1, by rw [hn]⟩
        · simp at hn

/-- When the first success happens at attempt `j+1 ≤ retries`, the loop exits
with code 0 after exactly `j+1` attempts. -/
theorem checkinLoop_firstSuccess (base key username : String) (retries : Nat)
    (worlds : Nat → World) (deliv : Nat → Option Nat) :
    ∀ fuel attempt acc nsent j, attempt + fuel = retries → attempt ≤ j → j < retries →
      (∀ i, attempt < i → i ≤ j → (do_checkin_once base (worlds i)).1 = false) →
      (do_checkin_once base (worlds (j + 1))).1 = true →
      (checkinLoop base key username retries worlds deliv fuel attempt acc nsent).exit = 0 ∧
      (checkinLoop base key username retries worlds deliv fuel attempt acc nsent).attemptsMade
        = j + 1 := by
  intro fuel
  induction fuel with
  | zero =>
    intro attempt acc nsent j hsum hle hlt _ _
    exact absurd hlt (by omega)
  | succ f ih =>
    intro attempt acc nsent j hsum hle hlt hfail hsucc
    by_cases hj : attempt = j
    · subst hj
      simp [checkinLoop, hsucc]
    · have hja : attempt < j := lt_of_le_of_ne hle hj
      have hfa : (do_checkin_once base (worlds (attempt + 1))).1 = false :=
        hfail (attempt + 1) (by omega) (by omega)
      have hlt2 : attempt + 1 < retries := by omega
      have hrec := ih (attempt + 1)
        (acc ++ [tagReason (attempt + 1) (reasonOf base (worlds (attempt + 1)))])
        ((maybeNotify key (perFailTitle (attempt + 1))
          (perFailDesp username (attempt + 1) retries (reasonOf base (worlds (attempt + 1)))
            base) deliv nsent).2) j
        (by omega) (by omega) hlt (fun i hi1 hi2 => hfail i (by omega) hi2) hsucc
      simp only [checkinLoop, hfa, Bool.false_eq_true, if_false, reasonOf, hlt2, if_true]
      exact hrec

/-- Per-attempt failure titles never collide with the final aggregate title
(their lengths already differ). -/
theorem perFailTitle_ne_final (a : Nat) : perFailTitle a ≠ finalFailTitle := by
  intro h
  have h2 := congrArg (fun s => s.data.length) h
  simp only [perFailTitle, finalFailTitle] at h2
  rw [strData_append, strData_append] at h2
  simp only [List.length_append, List.length_cons, List.length_nil] at h2
  omega

/-- Closed form of the accumulated tags. -/
theorem failTagsFrom_eq (base : String) (worlds : Nat → World) :
    ∀ fuel attempt, failTagsFrom base worlds attempt fuel =
      (List.range fuel).map fun j =>
        tagReason (attempt + 1 + j) (reasonOf base (worlds (attempt + 1 + j))) := by
  intro fuel
  induction fuel with
  | zero => intro attempt; rfl
  | succ f ih =>
    intro attempt
    rw [failTagsFrom, List.range_succ_eq_map, List.map_cons, List.map_map, ih (attempt + 1)]
    congr 1
    refine List.map_congr_left ?_
    intro j _
    simp only [Function.comp]
    have h : attempt + 1 + 1 + j = attempt + 1 + Nat.succ j := by omega
    rw [h]

theorem failTagsFrom_zero (base : String) (worlds : Nat → World) (retries : Nat) :
    failTagsFrom base worlds 0 retries =
      (List.range retries).map fun j => tagReason (j + 1) (reasonOf base (worlds (j + 1))) := by
  rw [failTagsFrom_eq]
  refine List.map_congr_left ?_
  intro j _
  have h : 0 + 1 + j = j + 1 := by omega
  rw [h]

/-- The joined tag list contains every recorded reason, in attempt order. -/
theorem chainSub_failTags (base : String) (worlds : Nat → World) (retries : Nat) :
    ChainSub (joinWith "\n" (failTagsFrom base worlds 0 retries)).data
      ((List.range retries).map fun i => reasonOf base (worlds (i + 1))) := by
  rw [failTagsFrom_zero]
  have hc := chainSub_joinPairs ((List.range retries).map fun i =>
    ("尝试#" ++ toString (i + 1) ++ ": ", reasonOf base (worlds (i + 1))))
  rw [List.map_map, List.map_map] at hc
  exact hc

/-- Lifting containment through the final notification body's fixed header. -/
theorem chainSub_finalDesp (username : String) (retries : Nat) (base : String)
    (rs : List String) (l : List String) (h : ChainSub (joinWith "\n" rs).data l) :
    ChainSub (finalDesp username retries base rs).data l := by
  unfold finalDesp
  rw [strData_append]
  exact chainSub_prepend _ h

theorem getLast?_append_singleton {α : Type} (l : List α) (a : α) :
    (l ++ [a]).getLast? = some a := by
  induction l with
  | nil => rfl
  | cons x xs ih =>
    cases hx : xs ++ [a] with
    | nil => exact absurd hx (by simp)
    | cons y ys => rw [List.cons_append, hx, List.getLast?_cons_cons, ← hx, ih]

/-- C4: with a configured notification key, for every run in which all
`retries` attempts fail, `checkin_with_retries` performs exactly `retries`
attempts, records one reason per failed attempt, emits exactly one final
aggregate notification — the last notification, whose body contains all
recorded reasons in attempt order — and returns exit code 1; and for every run
whose first success is at attempt `j+1 ≤ retries`, it returns exit code 0
after exactly `j+1` attempts. -/
theorem c4_retry_aggregate (base key username : String) (retries : Nat)
    (worlds : Nat → World) (deliv : Nat → Option Nat)
    (hkey : key ≠ "") (hret : 0 < retries) :
    ((∀ i, i < retries → (do_checkin_once base (worlds (i + 1))).1 = false) →
      (checkin_with_retries base key username retries worlds deliv).exit = 1 ∧
      (checkin_with_retries base key username retries worlds deliv).attemptsMade = retries ∧
      ((checkin_with_retries base key username retries worlds deliv).notifs.countP
        fun n => n.title == finalFailTitle) = 1 ∧
      (∃ n, (checkin_with_retries base key username retries worlds deliv).notifs.getLast?
          = some n ∧
        n.title = finalFailTitle ∧
        ChainSub n.desp.data
          ((List.range retries).map fun i => reasonOf base (worlds (i + 1))))) ∧
    (∀ j, j < retries → (∀ i, i < j → (do_checkin_once base (worlds (i + 1))).1 = false) →
      (do_checkin_once base (worlds (j + 1))).1 = true →
      (checkin_with_retries base key username retries worlds deliv).exit = 0 ∧
      (checkin_with_retries base key username retries worlds deliv).attemptsMade = j + 1) := by
  have hkeyb : (key == "") = false := by
    simp only [beq_eq_false_iff_ne, ne_eq]
    exact hkey
  constructor
  · intro hfail
    obtain ⟨ns, b, heq, hns⟩ := checkinLoop_allFail base key username retries worlds deliv hkeyb
      retries 0 [] 0 (by omega) hret (fun i hi1 hi2 => by
        have h' := hfail (i - 1) (by omega)
        have hi' : i - 1 + 1 = i := by omega
        rwa [hi'] at h')
    have hres : checkin_with_retries base key username retries worlds deliv =
        ⟨1, ns ++ [⟨finalFailTitle, finalDesp username retries base
          ([] ++ failTagsFrom base worlds 0 retries), b⟩], retries⟩ := heq
    rw [hres]
    refine ⟨rfl, rfl, ?_, ?_⟩
    · rw [List.countP_append]
      have h0 : (ns.countP fun n => n.title == finalFailTitle) = 0 := by
        apply List.countP_eq_zero.mpr
        intro n hn
        obtain ⟨a, ha⟩ := hns n hn
        simp [ha, perFailTitle_ne_final a]
      rw [h0]
      simp [List.countP_cons]
    · refine ⟨_, getLast?_append_singleton ns _, rfl, ?_⟩
      simp only [List.nil_append]
      exact chainSub_finalDesp username retries base _ _ (chainSub_failTags base worlds retries)
  · intro j hj hbefore hsucc
    exact checkinLoop_firstSuccess base key username retries worlds deliv retries 0 [] 0 j
      (by omega) (by omega) hj
      (fun i hi1 hi2 => by
        have h' := hbefore (i - 1) (by omega)
        have hi' : i - 1 + 1 = i := by omega
        rwa [hi'] at h')
      hsucc

/-- C4 (witness): a 2-attempt all-fail run and a first-attempt-success run. -/
theorem c4_retry_aggregate_witness :
    ((checkin_with_retries "B" "k" "u" 2 (fun _ => ⟨.error "boom", .error "x", .error "x", []⟩)
        (fun _ => none)).exit = 1 ∧
      (checkin_with_retries "B" "k" "u" 2 (fun _ => ⟨.error "boom", .error "x", .error "x", []⟩)
        (fun _ => none)).attemptsMade = 2 ∧
      ((checkin_with_retries "B" "k" "u" 2 (fun _ => ⟨.error "boom", .error "x", .error "x", []⟩)
        (fun _ => none)).notifs.countP fun n => n.title == finalFailTitle) = 1 ∧
      (∃ n, (checkin_with_retries "B" "k" "u" 2
            (fun _ => ⟨.error "boom", .error "x", .error "x", []⟩)
            (fun _ => none)).notifs.getLast? = some n ∧
        n.title = finalFailTitle ∧
        ChainSub n.desp.data ((List.range 2).map fun i =>
          reasonOf "B" ((fun _ => (⟨.error "boom", .error "x", .error "x", []⟩ : World))
            (i + 1))))) ∧
    ((checkin_with_retries "B" "k" "u" 3
        (fun _ => ⟨.ok ⟨200, "success", [], [], "success"⟩, .error "x", .error "x", []⟩)
        (fun _ => some 200)).exit = 0 ∧
      (checkin_with_retries "B" "k" "u" 3
        (fun _ => ⟨.ok ⟨200, "success", [], [], "success"⟩, .error "x", .error "x", []⟩)
        (fun _ => some 200)).attemptsMade = 0 + 1) :=
  ⟨(c4_retry_aggregate "B" "k" "u" 2 (fun _ => ⟨.error "boom", .error "x", .error "x", []⟩)
      (fun _ => none) (by decide) (by decide)).1 (by decide),
   (c4_retry_aggregate "B" "k" "u" 3
      (fun _ => ⟨.ok ⟨200, "success", [], [], "success"⟩, .error "x", .error "x", []⟩)
      (fun _ => some 200) (by decide) (by decide)).2 0 (by decide) (by omega) (by decide)⟩

/-! ## C9 -/

/-- The exit code and attempt count of the loop never depend on the
notification-delivery oracle: deliveries only reach the `delivered` flags of
the notification log. -/
theorem checkinLoop_exit_delivIndep (base key username : String) (retries : Nat)
    (worlds : Nat → World) (d1 d2 : Nat → Option Nat) :
    ∀ fuel attempt acc n1 n2,
      (checkinLoop base key username retries worlds d1 fuel attempt acc n1).exit =
        (checkinLoop base key username retries worlds d2 fuel attempt acc n2).exit ∧
      (checkinLoop base key username retries worlds d1 fuel attempt acc n1).attemptsMade =
        (checkinLoop base key username retries worlds d2 fuel attempt acc n2).attemptsMade := by
  intro fuel
  induction fuel with
  | zero => intro attempt acc n1 n2; exact ⟨rfl, rfl⟩
  | succ f ih =>
    intro attempt acc n1 n2
    cases hs : (do_checkin_once base (worlds (attempt + 1))).1 with
    | true => simp [checkinLoop, hs]
    | false =>
      by_cases hlt : attempt + 1 < retries
      · simp only [checkinLoop, hs, Bool.false_eq_true, if_false, hlt, if_true]
        exact ih (attempt + 1) _ _ _
      · simp [checkinLoop, hs, hlt]

/-- C9: the exit code of `checkin_with_retries` (and its attempt count) is
independent of the outcomes of all `send_serverchan` deliveries: two runs
identical except for the delivery oracle return the same exit code.  Delivery
failures are absorbed inside `send_serverchan` (modelled as a total function:
the `except` of lines 367-370 turns any raised delivery error into `False`)
and only ever reach the notification log's `delivered` flags. -/
theorem c9_exit_independent_of_delivery (base key username : String) (retries : Nat)
    (worlds : Nat → World) (d1 d2 : Nat → Option Nat) :
    (checkin_with_retries base key username retries worlds d1).exit =
      (checkin_with_retries base key username retries worlds d2).exit ∧
    (checkin_with_retries base key username retries worlds d1).attemptsMade =
      (checkin_with_retries base key username retries worlds d2).attemptsMade :=
  checkinLoop_exit_delivIndep base key username retries worlds d1 d2 retries 0 [] 0 0
